import Mathlib

/-!
Shallow embedding of the financial-document-analyzer job-processing core.

Source files embedded:
  * `database.py`   — `JobStatus`, `AnalysisJob` (job record), session/commit semantics
  * `celery_tasks.py` — `run_analysis_task` (the worker-side `process` operation)
  * `main.py`       — `analyze_sync`, `analyze_async`, `get_analysis_result` endpoints
  * `tools.py`      — `read_financial_document` (PDF text extractor)

Modelling conventions:
  * The filesystem is the set (list) of existing file paths; `os.path.isfile` /
    `os.path.exists` are membership, `os.remove` deletes all occurrences.
  * The database is a list of job records; `db.query(...).filter(id==jid).first()`
    is `List.find?`, and a SQLAlchemy `commit` of a mutated ORM row is an
    in-place replacement of the row with the same id.
  * The CrewAI crew (`_run_crew_sync` / `run_crew`) is an opaque environment
    function `crew : query → file_path → Except String String`: `.ok r` models a
    normal return whose `str(result)` is `r`, `.error e` models a raised
    exception whose `str(e)` is `e`.
  * `os.remove` may fail (`OSError`), modelled by the environment flag
    `removeOk`; the commit that persists the PENDING→PROCESSING transition may
    fail unexpectedly (an "unexpected fault" inside the operation body outside
    the inner `try/except`), modelled by `commitProcessingOk`; a failed commit
    leaves the durable record unchanged and the exception propagates.
  * Timestamps (`created_at`/`updated_at`) are not modelled; no claim is about
    them.
-/

namespace FinAnalyzer

/-- `database.py` `class JobStatus`: the four status strings. -/
inductive JobStatus where
  | pending
  | processing
  | completed
  | failed
deriving DecidableEq, Repr

/-- `database.py` `class AnalysisJob`: one durable job record.
`Option` fields model nullable columns (`None` = SQL NULL). -/
structure AnalysisJob where
  id : String
  status : JobStatus
  file_path : String
  original_filename : Option String
  query : Option String
  result_text : Option String
  error_message : Option String
deriving DecidableEq, Repr

/-- Filesystem model: the list of paths of existing files. -/
abbrev FS := List String

/-- `os.path.isfile` / `os.path.exists` (every modelled path is a regular file). -/
def fsExists (fs : FS) (p : String) : Bool :=
  fs.contains p

/-- `os.remove`: the path no longer exists afterwards. -/
def fsRemove (fs : FS) (p : String) : FS :=
  fs.filter (fun q => q ≠ p)

/-- Database model: the list of persisted job rows. -/
abbrev DB := List AnalysisJob

/-- `db.query(AnalysisJob).filter(AnalysisJob.id == jid).first()`. -/
def dbFind (db : DB) (jid : String) : Option AnalysisJob :=
  db.find? (fun k => k.id == jid)

/-- Committing a mutated ORM row: replace the stored row(s) with that id. -/
def dbUpdate (db : DB) (j : AnalysisJob) : DB :=
  db.map (fun k => if k.id == j.id then j else k)

/-- `db.add(job)` followed by `db.commit()`: append a new row. -/
def dbAdd (db : DB) (j : AnalysisJob) : DB :=
  db ++ [j]

/-- The `finally`-block cleanup in `celery_tasks.py` and `main.py`:
`if os.path.exists(file_path): try: os.remove(file_path) except OSError: pass`.
Returns the new filesystem and the number of deletion attempts made (0 or 1);
a failed `os.remove` (`removeOk = false`) still counts as an attempt but
leaves the file in place, and the `OSError` is swallowed. -/
def cleanupFile (removeOk : Bool) (fs : FS) (file_path : String) : FS × Nat :=
  if fsExists fs file_path then
    (if removeOk then fsRemove fs file_path else fs, 1)
  else
    (fs, 0)

/-- The task's cleanup guard is `if file_path and os.path.exists(file_path)`:
Python string truthiness adds a non-emptiness test on the path. -/
def taskCleanup (removeOk : Bool) (fs : FS) (file_path : String) : FS × Nat :=
  if file_path = "" then (fs, 0) else cleanupFile removeOk fs file_path

/-- Environment of one `run_analysis_task` invocation (`celery_tasks.py`). -/
structure TaskEnv where
  /-- `_run_crew_sync(query, file_path)`: `.ok` = returned report text,
  `.error` = raised exception rendered by `str(e)`. -/
  crew : String → String → Except String String
  /-- whether `os.remove` in the `finally` block succeeds. -/
  removeOk : Bool
  /-- whether the `db.commit()` persisting PENDING→PROCESSING succeeds;
  `false` injects an unexpected fault at that point. -/
  commitProcessingOk : Bool

/-- The Python dict returned by `run_analysis_task`:
`{"ok": b, "error": msg}` or `{"ok": b, "job_id": jid}`. -/
structure TaskReturn where
  ok : Bool
  error : Option String
  job_id : Option String
deriving DecidableEq, Repr

/-- Full observable outcome of one `run_analysis_task` invocation.
`ret = .error f` models an exception `f` propagating out of the task after the
`finally` block ran. -/
structure TaskOutcome where
  ret : Except String TaskReturn
  db : DB
  fs : FS
  deleteAttempts : Nat
deriving Repr

/-- The body of `run_analysis_task` (`celery_tasks.py` lines 26–51), i.e.
everything inside the outer `try` before the `finally` block. Returns the
value-or-exception and the database as committed. -/
def run_analysis_body (env : TaskEnv) (db : DB) (fs : FS)
    (job_id file_path query : String) : Except String TaskReturn × DB :=
  match dbFind db job_id with
  | none =>
      -- `if not job: return {"ok": False, "error": "Job not found"}`
      (.ok ⟨false, some "Job not found", none⟩, db)
  | some job0 =>
      -- `job.status = JobStatus.PROCESSING; db.commit()`
      let job1 := { job0 with status := JobStatus.processing }
      if env.commitProcessingOk then
        let db1 := dbUpdate db job1
        if !(fsExists fs file_path) then
          -- `if not os.path.isfile(file_path): ... FAILED ... return`
          let job2 := { job1 with
            status := JobStatus.failed
            error_message := some ("File not found: " ++ file_path) }
          (.ok ⟨false, some ("File not found: " ++ file_path), none⟩, dbUpdate db1 job2)
        else
          match env.crew query file_path with
          | .ok result =>
              -- success branch of the inner try
              let job2 := { job1 with
                status := JobStatus.completed
                result_text := some result
                error_message := none }
              (.ok ⟨job2.status == JobStatus.completed, none, some job_id⟩, dbUpdate db1 job2)
          | .error e =>
              -- `except Exception as e:` branch; `job.result_text` untouched
              let job2 := { job1 with
                status := JobStatus.failed
                error_message := some e }
              (.ok ⟨job2.status == JobStatus.completed, none, some job_id⟩, dbUpdate db1 job2)
      else
        -- the commit raised: the durable row keeps its last committed value
        (.error "commit failed", db)

/-- `run_analysis_task` (`celery_tasks.py`): the body wrapped in
`try ... finally: db.close(); if file_path and os.path.exists(file_path):
try: os.remove(file_path) except OSError: pass`. The cleanup runs on every
exit path of the body, including the early returns and propagated faults. -/
def run_analysis_task (env : TaskEnv) (db : DB) (fs : FS)
    (job_id file_path query : String) : TaskOutcome :=
  let r := run_analysis_body env db fs job_id file_path query
  let c := taskCleanup env.removeOk fs file_path
  ⟨r.1, r.2, c.1, c.2⟩

/-! ## Gateway endpoints (`main.py`) -/

/-- `config.py`: `UPLOAD_DIR = os.path.join(DATA_DIR, "uploads")` with the
default `DATA_DIR = "data"`. -/
def UPLOAD_DIR : String := "data/uploads"

/-- The temp-file path both endpoints build:
`os.path.join(UPLOAD_DIR, f"financial_document_X.pdf")` for id `X`. -/
def uploadPath (file_id : String) : String :=
  UPLOAD_DIR ++ "/financial_document_" ++ file_id ++ ".pdf"

/-- Python `str.lower()` (character-wise lowering). -/
def pyLower (s : String) : String := String.mk (s.data.map Char.toLower)

/-- Python `str.endswith(t)`. -/
def pyEndsWith (s t : String) : Bool := t.data.isSuffixOf s.data

/-- Python whitespace (the ASCII characters stripped by `str.strip()`). -/
def pyIsSpace (c : Char) : Bool :=
  c = ' ' || c = '\t' || c = '\n' || c = '\r' || c = '\x0b' || c = '\x0c'

/-- Python `str.strip()`: drop leading and trailing whitespace. -/
def pyStrip (s : String) : String :=
  String.mk (((s.data.dropWhile pyIsSpace).reverse.dropWhile pyIsSpace).reverse)

/-- The guard `not file.filename or not file.filename.lower().endswith(".pdf")`
(negated): `none` models a missing filename, and Python's string truthiness
makes the empty filename falsy. -/
def pdfOk : Option String → Bool
  | none => false
  | some s => !(s = "") && pyEndsWith (pyLower s) ".pdf"

/-- The default analysis prompt (the `Form(default=...)` value in `main.py`). -/
def default_query : String := "Analyze this financial document for investment insights"

/-- Query normalisation done by both endpoints. A missing form field (`none`)
receives the `Form` default; then `query = (query or "").strip() or default`. -/
def normalizeQuery (q : Option String) : String :=
  let received := q.getD default_query
  let stripped := pyStrip received
  if stripped = "" then default_query else stripped

/-- A raised `HTTPException(status_code, detail)`. -/
structure HTTPException where
  status_code : Nat
  detail : String
deriving DecidableEq, Repr

/-- Environment for one gateway request. -/
structure GatewayEnv where
  /-- `run_crew(query, file_path)` — same convention as `TaskEnv.crew`. -/
  crew : String → String → Except String String
  /-- whether writing the uploaded bytes to disk succeeds (`OSError` if not). -/
  saveOk : Bool
  /-- `str(e)` of the `OSError` when saving fails. -/
  saveErr : String
  /-- whether `run_analysis_task.delay(...)` succeeds. -/
  enqueueOk : Bool
  /-- `str(e)` of the exception when enqueueing fails. -/
  enqueueErr : String
  /-- whether `os.remove` in a cleanup block succeeds. -/
  removeOk : Bool

/-- The success body of `POST /analyze/sync`. -/
structure SyncSuccess where
  status : String
  query : String
  analysis : String
  file_processed : String
deriving DecidableEq, Repr

/-- Observable outcome of `POST /analyze/sync` (the db session is unused by
that endpoint, so no `db` component). -/
structure SyncOutcome where
  ret : Except HTTPException SyncSuccess
  fs : FS
  deleteAttempts : Nat
deriving Repr

/-- `analyze_sync` (`main.py`): filename guard, save, query default,
`run_crew` inside `try/except/finally` with file cleanup in the `finally`. -/
def analyze_sync (env : GatewayEnv) (fs : FS)
    (filename queryForm : Option String) (file_id : String) : SyncOutcome :=
  if !(pdfOk filename) then
    ⟨.error ⟨400, "A PDF file is required."⟩, fs, 0⟩
  else
    let file_path := uploadPath file_id
    if !env.saveOk then
      ⟨.error ⟨500, "Failed to save file: " ++ env.saveErr⟩, fs, 0⟩
    else
      let fs1 := file_path :: fs
      let query := normalizeQuery queryForm
      let ret : Except HTTPException SyncSuccess :=
        match env.crew query file_path with
        | .ok r => .ok ⟨"success", query, r, filename.getD ""⟩
        | .error e => .error ⟨500, "Error processing document: " ++ e⟩
      let c := cleanupFile env.removeOk fs1 file_path
      ⟨ret, c.1, c.2⟩

/-- The `AnalyzeResponse` model returned by `POST /analyze`. -/
structure AnalyzeResponse where
  job_id : String
  status : JobStatus
  message : String
deriving DecidableEq, Repr

/-- Observable outcome of `POST /analyze`. -/
structure AsyncOutcome where
  ret : Except HTTPException AnalyzeResponse
  db : DB
  fs : FS
  deleteAttempts : Nat
deriving Repr

/-- `analyze_async` (`main.py`): filename guard, save, query default, job-row
creation (PENDING), enqueue; on enqueue failure the row is marked FAILED, the
file removed, and a 503 raised. -/
def analyze_async (env : GatewayEnv) (db : DB) (fs : FS)
    (filename queryForm : Option String) (job_id : String) : AsyncOutcome :=
  if !(pdfOk filename) then
    ⟨.error ⟨400, "A PDF file is required."⟩, db, fs, 0⟩
  else
    let file_path := uploadPath job_id
    if !env.saveOk then
      ⟨.error ⟨500, "Failed to save file: " ++ env.saveErr⟩, db, fs, 0⟩
    else
      let fs1 := file_path :: fs
      let query := normalizeQuery queryForm
      let job : AnalysisJob :=
        ⟨job_id, JobStatus.pending, file_path, filename, some query, none, none⟩
      let db1 := dbAdd db job
      if env.enqueueOk then
        ⟨.ok ⟨job_id, JobStatus.pending,
            "Analysis queued. Poll GET /analyze/\x7bjob_id\x7d for result."⟩,
          db1, fs1, 0⟩
      else
        let job2 := { job with
          status := JobStatus.failed
          error_message := some ("Failed to enqueue: " ++ env.enqueueErr) }
        let db2 := dbUpdate db1 job2
        let c := cleanupFile env.removeOk fs1 file_path
        ⟨.error ⟨503, "Queue unavailable; try /analyze/sync"⟩, db2, c.1, c.2⟩

/-- The JSON object returned by `GET /analyze/\x7bjob_id\x7d`; a `none` field
models an absent key (timestamps are omitted from the model). -/
structure JobView where
  job_id : String
  status : JobStatus
  query : Option String
  file_processed : Option String
  analysis : Option String
  error : Option String
deriving DecidableEq, Repr

/-- `get_analysis_result` (`main.py`): 404 on unknown id; `analysis` present
iff COMPLETED; `error` present iff FAILED and `error_message` truthy. -/
def get_analysis_result (db : DB) (job_id : String) : Except HTTPException JobView :=
  match dbFind db job_id with
  | none => .error ⟨404, "Job not found"⟩
  | some j =>
      .ok ⟨j.id, j.status, j.query, j.original_filename,
        (if j.status == JobStatus.completed then j.result_text else none),
        (match j.error_message with
         | some e => if j.status == JobStatus.failed && !(e = "") then some e else none
         | none => none)⟩

/-! ## Document text extractor (`tools.py`) -/

/-- Python `"\n\n" in content`: some adjacent pair of newline characters. -/
def hasNN : List Char → Bool
  | [] => false
  | [_] => false
  | c1 :: c2 :: rest => (c1 = '\n' && c2 = '\n') || hasNN (c2 :: rest)

/-- Python `content.replace("\n\n", "\n")`: one left-to-right non-overlapping
replacement pass. -/
def replaceNN : List Char → List Char
  | [] => []
  | [c] => [c]
  | c1 :: c2 :: rest =>
      if c1 = '\n' && c2 = '\n' then '\n' :: replaceNN rest
      else c1 :: replaceNN (c2 :: rest)

theorem replaceNN_length_le (l : List Char) : (replaceNN l).length ≤ l.length := by
  induction l using replaceNN.induct with
  | case1 => simp [replaceNN]
  | case2 c => simp [replaceNN]
  | case3 c1 c2 rest h ih =>
      simp only [replaceNN, if_pos h, List.length_cons]
      omega
  | case4 c1 c2 rest h ih =>
      simp only [replaceNN, if_neg h, List.length_cons]
      simpa using ih

theorem replaceNN_length_lt (l : List Char) (h : hasNN l = true) :
    (replaceNN l).length < l.length := by
  induction l using replaceNN.induct with
  | case1 => simp [hasNN] at h
  | case2 c => simp [hasNN] at h
  | case3 c1 c2 rest hnn ih =>
      have := replaceNN_length_le rest
      simp only [replaceNN, if_pos hnn, List.length_cons]
      omega
  | case4 c1 c2 rest hnn ih =>
      simp only [hasNN, Bool.or_eq_true] at h
      rcases h with h | h
      · exact absurd h hnn
      · have := ih h
        simp only [List.length_cons] at this
        simp only [replaceNN, if_neg hnn, List.length_cons]
        omega

/-- One fuelled step of the python while-loop; each pass shortens the string,
so any fuel exceeding the length runs the loop to completion. -/
def collapseGo : Nat → List Char → List Char
  | 0, l => l
  | n + 1, l => if hasNN l = true then collapseGo n (replaceNN l) else l

/-- Python `while "\n\n" in content: content = content.replace("\n\n", "\n")`
(`l.length + 1` iterations always suffice; `collapseLoop_eq` below shows this
definition satisfies exactly the loop's defining equation). -/
def collapseLoop (l : List Char) : List Char :=
  collapseGo (l.length + 1) l

theorem collapseGo_congr : ∀ (m n : Nat) (l : List Char),
    l.length < m → l.length < n → collapseGo m l = collapseGo n l := by
  intro m
  induction m with
  | zero => intro n l hm; omega
  | succ m ih =>
      intro n l hm hn
      cases n with
      | zero => omega
      | succ n =>
          show (if hasNN l = true then collapseGo m (replaceNN l) else l) =
            (if hasNN l = true then collapseGo n (replaceNN l) else l)
          by_cases hnn : hasNN l = true
          · rw [if_pos hnn, if_pos hnn]
            have hlt := replaceNN_length_lt l hnn
            exact ih n (replaceNN l) (by omega) (by omega)
          · rw [if_neg hnn, if_neg hnn]

/-- The fuelled definition satisfies the while-loop's defining equation. -/
theorem collapseLoop_eq (l : List Char) :
    collapseLoop l = if hasNN l = true then collapseLoop (replaceNN l) else l := by
  show (if hasNN l = true then collapseGo l.length (replaceNN l) else l) = _
  by_cases hnn : hasNN l = true
  · rw [if_pos hnn, if_pos hnn]
    have hlt := replaceNN_length_lt l hnn
    exact collapseGo_congr l.length ((replaceNN l).length + 1) (replaceNN l)
      (by omega) (by omega)
  · rw [if_neg hnn, if_neg hnn]

theorem hasNN_collapseGo : ∀ (n : Nat) (l : List Char), l.length < n →
    hasNN (collapseGo n l) = false := by
  intro n
  induction n with
  | zero => intro l h; omega
  | succ n ih =>
      intro l h
      show hasNN (if hasNN l = true then collapseGo n (replaceNN l) else l) = false
      by_cases hnn : hasNN l = true
      · rw [if_pos hnn]
        have hlt := replaceNN_length_lt l hnn
        exact ih (replaceNN l) (by omega)
      · rw [if_neg hnn]
        exact Bool.eq_false_iff.mpr hnn

/-- When the while-loop exits, its condition is false: the collapsed text has
no two adjacent newline characters. -/
theorem hasNN_collapseLoop (l : List Char) : hasNN (collapseLoop l) = false :=
  hasNN_collapseGo (l.length + 1) l (Nat.lt_succ_self _)

/-- The per-page blank-line collapse, as a `String` operation. -/
def collapseStr (s : String) : String :=
  String.mk (collapseLoop s.data)

/-- The sentinel returned when the trimmed concatenation is empty. -/
def noTextSentinel : String := "(No text extracted from PDF)"

/-- The raw concatenation `full_report` built by the loop
`for data in docs: ...; full_report += content + "\n"`, where each page's
`content` (`data.page_content or ""`) has already had its blank-line runs
collapsed. -/
def fullReport (docs : List String) : String :=
  docs.foldl (fun acc d => acc ++ collapseStr d ++ "\n") ""

/-- `read_financial_document` (`tools.py`). `pdfLoad` models
`PyPDFLoader(file_path=path).load()`: `.ok docs` is a successful parse into
per-page `page_content` strings (`None` already coerced to `""` by
`data.page_content or ""`), `.error e` is an exception raised by the loader
(corrupt PDF, existing-but-unreadable file) rendered by `str(e)`. The tool has
no `try/except`, so a loader exception propagates out of the tool, modelled by
the `Except.error` result. The guard is `if not path or not
os.path.isfile(path)`. -/
def read_financial_document (fs : FS)
    (pdfLoad : String → Except String (List String))
    (path : String) : Except String String :=
  if path = "" || !(fsExists fs path) then
    Except.ok ("Error: File not found at path: " ++ path)
  else
    match pdfLoad path with
    | Except.error e => Except.error e
    | Except.ok docs =>
        let report := fullReport docs
        -- `return full_report.strip() or "(No text extracted from PDF)"`
        Except.ok (if pyStrip report = "" then noTextSentinel else pyStrip report)

/-! ## Database lemmas -/

theorem dbFind_id {db : DB} {jid : String} {j : AnalysisJob}
    (h : dbFind db jid = some j) : j.id = jid := by
  have := List.find?_some h
  simpa using this

theorem dbFind_dbUpdate_self {db : DB} {jid : String} {j : AnalysisJob}
    (h : dbFind db jid = some j) (j' : AnalysisJob) (h' : j'.id = jid) :
    dbFind (dbUpdate db j') jid = some j' := by
  induction db with
  | nil => simp [dbFind] at h
  | cons a tl ih =>
      by_cases ha : (a.id == jid) = true
      · have haj : ((a.id == j'.id) = true) := by rw [h']; exact ha
        show List.find? _ ((if a.id == j'.id then j' else a) :: _) = _
        rw [if_pos haj, List.find?_cons_of_pos]
        show (j'.id == jid) = true
        simp [h']
      · have haj : ¬ ((a.id == j'.id) = true) := by rw [h']; exact ha
        have h1 : dbFind tl jid = some j := by
          have := List.find?_cons_of_neg (p := fun k : AnalysisJob => k.id == jid) tl ha
          unfold dbFind at h ⊢
          rw [this] at h
          exact h
        show List.find? _ ((if a.id == j'.id then j' else a) :: _) = _
        rw [if_neg haj, List.find?_cons_of_neg (p := fun k : AnalysisJob => k.id == jid) _ ha]
        exact ih h1

theorem dbFind_dbAdd_new {db : DB} {jid : String}
    (h : dbFind db jid = none) (j : AnalysisJob) (hj : j.id = jid) :
    dbFind (dbAdd db j) jid = some j := by
  unfold dbFind dbAdd
  rw [List.find?_append]
  unfold dbFind at h
  rw [h]
  simp [hj]

/-- Rows whose id differs from the updated one are untouched by a commit. -/
theorem dbFind_dbUpdate_ne {db : DB} (j' : AnalysisJob) {oid : String}
    (h : (j'.id == oid) = false) :
    dbFind (dbUpdate db j') oid = dbFind db oid := by
  induction db with
  | nil => rfl
  | cons a tl ih =>
      by_cases ha : (a.id == j'.id) = true
      · have haid : a.id = j'.id := by simpa using ha
        have hao : ¬ ((a.id == oid) = true) := by
          rw [haid]; simp [h]
        show List.find? _ ((if a.id == j'.id then j' else a) :: _) = _
        rw [if_pos ha,
          List.find?_cons_of_neg (p := fun k : AnalysisJob => k.id == oid) _
            (by simp [h] : ¬ ((j'.id == oid) = true))]
        rw [show dbFind (a :: tl) oid = dbFind tl oid from
          List.find?_cons_of_neg (p := fun k : AnalysisJob => k.id == oid) _ hao]
        exact ih
      · show List.find? _ ((if a.id == j'.id then j' else a) :: _) = _
        rw [if_neg ha]
        by_cases hao : (a.id == oid) = true
        · rw [List.find?_cons_of_pos (p := fun k : AnalysisJob => k.id == oid) _ hao]
          rw [show dbFind (a :: tl) oid = some a from
            List.find?_cons_of_pos (p := fun k : AnalysisJob => k.id == oid) _ hao]
        · rw [List.find?_cons_of_neg (p := fun k : AnalysisJob => k.id == oid) _ hao]
          rw [show dbFind (a :: tl) oid = dbFind tl oid from
            List.find?_cons_of_neg (p := fun k : AnalysisJob => k.id == oid) _ hao]
          exact ih

/-! ## The job-record invariant (spec §3) -/

/-- "Exactly one of `result_text`/`error_message` is set once the status is
terminal (COMPLETED ⇒ `result_text` only, FAILED ⇒ `error_message` only);
neither is set while PENDING or PROCESSING." -/
def jobInvariant (j : AnalysisJob) : Bool :=
  match j.status with
  | JobStatus.completed => j.result_text.isSome && j.error_message.isNone
  | JobStatus.failed => j.error_message.isSome && j.result_text.isNone
  | _ => j.result_text.isNone && j.error_message.isNone

/-! ## Scenario lemmas for `run_analysis_task` -/

/-- Cleanup is unconditional: the filesystem outcome and the deletion-attempt
count of the task depend only on `removeOk`, the initial filesystem, and the
passed path. -/
theorem run_task_cleanup (env : TaskEnv) (db : DB) (fs : FS)
    (jid fp q : String) :
    (run_analysis_task env db fs jid fp q).fs = (taskCleanup env.removeOk fs fp).1 ∧
    (run_analysis_task env db fs jid fp q).deleteAttempts = (taskCleanup env.removeOk fs fp).2 :=
  ⟨rfl, rfl⟩

/-- Early return when the job id is unknown: the database is untouched. -/
theorem run_task_no_job {db : DB} {jid : String} (env : TaskEnv) (fs : FS)
    (fp q : String) (h : dbFind db jid = none) :
    (run_analysis_task env db fs jid fp q).ret = .ok ⟨false, some "Job not found", none⟩ ∧
    (run_analysis_task env db fs jid fp q).db = db := by
  constructor <;> simp [run_analysis_task, run_analysis_body, h]

/-- Unexpected fault at the PROCESSING commit: the exception propagates (after
cleanup) and the durable record keeps its last committed value. -/
theorem run_task_fault {db : DB} {jid : String} {j : AnalysisJob} (env : TaskEnv)
    (fs : FS) (fp q : String) (h : dbFind db jid = some j)
    (hc : env.commitProcessingOk = false) :
    (run_analysis_task env db fs jid fp q).ret = .error "commit failed" ∧
    (run_analysis_task env db fs jid fp q).db = db := by
  constructor <;> simp [run_analysis_task, run_analysis_body, h, hc]

/-- Missing-file branch: the job ends FAILED with a "File not found" message,
the crew is not consulted, and the return is a normal error dict. -/
theorem run_task_file_missing {db : DB} {jid : String} {j : AnalysisJob}
    {env : TaskEnv} (fs : FS) (fp q : String) (h : dbFind db jid = some j)
    (hc : env.commitProcessingOk = true) (hf : fsExists fs fp = false) :
    (run_analysis_task env db fs jid fp q).ret =
      .ok ⟨false, some ("File not found: " ++ fp), none⟩ ∧
    dbFind (run_analysis_task env db fs jid fp q).db jid =
      some { j with status := JobStatus.failed,
                    error_message := some ("File not found: " ++ fp) } := by
  have hid : j.id = jid := dbFind_id h
  have h1 : dbFind (dbUpdate db { j with status := JobStatus.processing }) jid =
      some { j with status := JobStatus.processing } :=
    dbFind_dbUpdate_self h _ hid
  constructor
  · simp [run_analysis_task, run_analysis_body, h, hc, hf]
  · simp only [run_analysis_task, run_analysis_body, h, hc, hf]
    simpa using dbFind_dbUpdate_self h1
      { j with status := JobStatus.failed,
               error_message := some ("File not found: " ++ fp) } hid

/-- Crew success branch: the job ends COMPLETED with the report stored and the
error field cleared; the task returns `ok = true`. -/
theorem run_task_crew_ok {db : DB} {jid : String} {j : AnalysisJob}
    {env : TaskEnv} {fs : FS} {fp : String} (q : String) {r : String}
    (h : dbFind db jid = some j) (hc : env.commitProcessingOk = true)
    (hf : fsExists fs fp = true) (hcrew : env.crew q fp = .ok r) :
    (run_analysis_task env db fs jid fp q).ret = .ok ⟨true, none, some jid⟩ ∧
    dbFind (run_analysis_task env db fs jid fp q).db jid =
      some { j with status := JobStatus.completed,
                    result_text := some r, error_message := none } := by
  have hid : j.id = jid := dbFind_id h
  have h1 : dbFind (dbUpdate db { j with status := JobStatus.processing }) jid =
      some { j with status := JobStatus.processing } :=
    dbFind_dbUpdate_self h _ hid
  constructor
  · simp [run_analysis_task, run_analysis_body, h, hc, hf, hcrew]
  · simp only [run_analysis_task, run_analysis_body, h, hc, hf, hcrew]
    simpa using dbFind_dbUpdate_self h1
      { j with status := JobStatus.completed,
               result_text := some r, error_message := none } hid

/-- Crew failure branch: the exception is caught, the job ends FAILED with
`str(e)` stored (the result field untouched), and the task returns normally
with `ok = false`. -/
theorem run_task_crew_error {db : DB} {jid : String} {j : AnalysisJob}
    {env : TaskEnv} {fs : FS} {fp : String} (q : String) {e : String}
    (h : dbFind db jid = some j) (hc : env.commitProcessingOk = true)
    (hf : fsExists fs fp = true) (hcrew : env.crew q fp = .error e) :
    (run_analysis_task env db fs jid fp q).ret = .ok ⟨false, none, some jid⟩ ∧
    dbFind (run_analysis_task env db fs jid fp q).db jid =
      some { j with status := JobStatus.failed, error_message := some e } := by
  have hid : j.id = jid := dbFind_id h
  have h1 : dbFind (dbUpdate db { j with status := JobStatus.processing }) jid =
      some { j with status := JobStatus.processing } :=
    dbFind_dbUpdate_self h _ hid
  constructor
  · simp [run_analysis_task, run_analysis_body, h, hc, hf, hcrew]
  · simp only [run_analysis_task, run_analysis_body, h, hc, hf, hcrew]
    simpa using dbFind_dbUpdate_self h1
      { j with status := JobStatus.failed, error_message := some e } hid

/-! ## Filesystem lemmas -/

theorem fsExists_fsRemove (fs : FS) (p : String) :
    fsExists (fsRemove fs p) p = false := by
  have h : p ∉ fsRemove fs p := by
    intro hm
    have := List.of_mem_filter hm
    simp at this
  simpa [fsExists] using h

theorem taskCleanup_of_exists {fs : FS} {fp : String} (removeOk : Bool)
    (hne : ¬ fp = "") (hex : fsExists fs fp = true) :
    taskCleanup removeOk fs fp = (if removeOk then fsRemove fs fp else fs, 1) := by
  simp [taskCleanup, cleanupFile, hne, hex]

theorem taskCleanup_of_missing {fs : FS} {fp : String}
    (removeOk : Bool) (hex : fsExists fs fp = false) :
    taskCleanup removeOk fs fp = (fs, 0) := by
  by_cases hne : fp = "" <;> simp [taskCleanup, cleanupFile, hne, hex]

/-! ## Claim C4 -/

/-- C4: for a job whose recorded path has no existing file at processing time,
`run_analysis_task` marks the job FAILED with an error message containing
"not found", never consults the Analysis Engine (the outcome is independent of
the crew function), and returns normally (a `.ok` error dict, no exception). -/
theorem C4_missing_file_fails_without_crew (env : TaskEnv) (db : DB) (fs : FS)
    (jid fp q : String) (j : AnalysisJob)
    (h : dbFind db jid = some j) (hc : env.commitProcessingOk = true)
    (hf : fsExists fs fp = false) :
    dbFind (run_analysis_task env db fs jid fp q).db jid =
      some { j with status := JobStatus.failed,
                    error_message := some ("File not found: " ++ fp) } ∧
    (∃ pre post : String, "File not found: " ++ fp = pre ++ "not found" ++ post) ∧
    (run_analysis_task env db fs jid fp q).ret =
      Except.ok ⟨false, some ("File not found: " ++ fp), none⟩ ∧
    (∀ c₁ c₂ : String → String → Except String String,
      run_analysis_task { env with crew := c₁ } db fs jid fp q =
        run_analysis_task { env with crew := c₂ } db fs jid fp q) := by
  refine ⟨(run_task_file_missing fs fp q h hc hf).2, ⟨"File ", ": " ++ fp, ?_⟩,
    (run_task_file_missing fs fp q h hc hf).1, fun c₁ c₂ => ?_⟩
  · have he : "File " ++ "not found" ++ ": " = "File not found: " := by decide
    rw [← String.append_assoc, he]
  · simp [run_analysis_task, run_analysis_body, h, hc, hf]

theorem C4_missing_file_fails_without_crew_witness :
    dbFind (run_analysis_task ⟨fun _ _ => Except.ok "r", true, true⟩
        [⟨"j1", JobStatus.pending, "gone.pdf", none, some "q", none, none⟩]
        [] "j1" "gone.pdf" "q").db "j1" =
      some { (⟨"j1", JobStatus.pending, "gone.pdf", none, some "q", none, none⟩ : AnalysisJob)
              with status := JobStatus.failed,
                   error_message := some ("File not found: " ++ "gone.pdf") } ∧
    (∃ pre post : String, "File not found: " ++ "gone.pdf" = pre ++ "not found" ++ post) ∧
    (run_analysis_task ⟨fun _ _ => Except.ok "r", true, true⟩
        [⟨"j1", JobStatus.pending, "gone.pdf", none, some "q", none, none⟩]
        [] "j1" "gone.pdf" "q").ret =
      Except.ok ⟨false, some ("File not found: " ++ "gone.pdf"), none⟩ ∧
    (∀ c₁ c₂ : String → String → Except String String,
      run_analysis_task ⟨c₁, true, true⟩
          [⟨"j1", JobStatus.pending, "gone.pdf", none, some "q", none, none⟩]
          [] "j1" "gone.pdf" "q" =
        run_analysis_task ⟨c₂, true, true⟩
          [⟨"j1", JobStatus.pending, "gone.pdf", none, some "q", none, none⟩]
          [] "j1" "gone.pdf" "q") :=
  C4_missing_file_fails_without_crew ⟨fun _ _ => Except.ok "r", true, true⟩
    [⟨"j1", JobStatus.pending, "gone.pdf", none, some "q", none, none⟩]
    [] "j1" "gone.pdf" "q"
    ⟨"j1", JobStatus.pending, "gone.pdf", none, some "q", none, none⟩
    rfl rfl rfl

/-! ## Claim C5 -/

/-- C5 counterexample: invoked with an unknown job id and an existing file at
the passed `file_path`, `run_analysis_task` DOES perform a file-cleanup
attempt and deletes that file (the `finally` block runs on the early return
too), contradicting "performs no file cleanup … does not delete the file at
the passed file_path even if that file exists on disk". -/
theorem C5_unknown_job_still_deletes_file :
    (run_analysis_task ⟨fun _ _ => Except.ok "r", true, true⟩
        [] ["doc.pdf"] "missing" "doc.pdf" "q").deleteAttempts = 1 ∧
    fsExists (run_analysis_task ⟨fun _ _ => Except.ok "r", true, true⟩
        [] ["doc.pdf"] "missing" "doc.pdf" "q").fs "doc.pdf" = false ∧
    (run_analysis_task ⟨fun _ _ => Except.ok "r", true, true⟩
        [] ["doc.pdf"] "missing" "doc.pdf" "q").ret =
      Except.ok ⟨false, some "Job not found", none⟩ :=
  ⟨rfl, rfl, rfl⟩

/-- C5 (amended): with an unknown job id the task reports a local
"Job not found" outcome and mutates no job record — but it still runs the
`finally` cleanup: if the passed `file_path` is non-empty and exists, exactly
one deletion attempt is made on it (deleting it when `os.remove` succeeds). -/
theorem C5_amended_unknown_job (env : TaskEnv) (db : DB) (fs : FS)
    (jid fp q : String) (h : dbFind db jid = none) :
    (run_analysis_task env db fs jid fp q).ret =
      Except.ok ⟨false, some "Job not found", none⟩ ∧
    (run_analysis_task env db fs jid fp q).db = db ∧
    (¬ fp = "" → fsExists fs fp = true →
      (run_analysis_task env db fs jid fp q).deleteAttempts = 1 ∧
      (env.removeOk = true →
        fsExists (run_analysis_task env db fs jid fp q).fs fp = false)) := by
  refine ⟨(run_task_no_job env fs fp q h).1, (run_task_no_job env fs fp q h).2,
    fun hne hex => ⟨?_, fun hrm => ?_⟩⟩
  · show (taskCleanup env.removeOk fs fp).2 = 1
    rw [taskCleanup_of_exists env.removeOk hne hex]
  · show fsExists (taskCleanup env.removeOk fs fp).1 fp = false
    rw [taskCleanup_of_exists env.removeOk hne hex, hrm]
    simpa using fsExists_fsRemove fs fp

theorem C5_amended_unknown_job_witness :
    (run_analysis_task ⟨fun _ _ => Except.ok "r", true, true⟩
        [] ["doc2.pdf"] "nojob" "doc2.pdf" "q").ret =
      Except.ok ⟨false, some "Job not found", none⟩ ∧
    (run_analysis_task ⟨fun _ _ => Except.ok "r", true, true⟩
        [] ["doc2.pdf"] "nojob" "doc2.pdf" "q").db = [] ∧
    (¬ "doc2.pdf" = "" → fsExists ["doc2.pdf"] "doc2.pdf" = true →
      (run_analysis_task ⟨fun _ _ => Except.ok "r", true, true⟩
          [] ["doc2.pdf"] "nojob" "doc2.pdf" "q").deleteAttempts = 1 ∧
      ((⟨fun _ _ => Except.ok "r", true, true⟩ : TaskEnv).removeOk = true →
        fsExists (run_analysis_task ⟨fun _ _ => Except.ok "r", true, true⟩
            [] ["doc2.pdf"] "nojob" "doc2.pdf" "q").fs "doc2.pdf" = false)) :=
  C5_amended_unknown_job ⟨fun _ _ => Except.ok "r", true, true⟩
    [] ["doc2.pdf"] "nojob" "doc2.pdf" "q" rfl

/-! ## Claim C6 -/

/-- C6 counterexample: not every failure raised inside `run_analysis_task` is
caught at the operation's boundary — the outer `try` has only a `finally`, no
`except`, so a failure at the `db.commit()` persisting PENDING→PROCESSING
propagates to the queue consumer (after the cleanup runs) instead of being
converted into a FAILED record and a normal return. -/
theorem C6_commit_failure_propagates_uncaught :
    (run_analysis_task ⟨fun _ _ => Except.ok "r", true, false⟩
        [⟨"j6", JobStatus.pending, "doc.pdf", none, some "q", none, none⟩]
        ["doc.pdf"] "j6" "doc.pdf" "q").ret = Except.error "commit failed" ∧
    (∀ r : TaskReturn,
      ¬ ((run_analysis_task ⟨fun _ _ => Except.ok "r", true, false⟩
        [⟨"j6", JobStatus.pending, "doc.pdf", none, some "q", none, none⟩]
        ["doc.pdf"] "j6" "doc.pdf" "q").ret = Except.ok r)) :=
  ⟨rfl, fun _ h => nomatch h⟩

/-- C6 (amended): only failures raised inside the inner `try` — by extraction
or the Analysis Engine (`_run_crew_sync`) — are caught and converted into a
terminal FAILED record with the failure's description as `error_message`, the
task then returning normally (`ok = false`); a failure raised elsewhere in the
operation, such as at a database commit, is not caught and propagates to the
queue consumer after the `finally` cleanup runs, leaving the durable record
at its last committed value. -/
theorem C6_amended_only_crew_failures_caught (env : TaskEnv) (db : DB)
    (fs : FS) (jid fp q e : String) (j : AnalysisJob)
    (h : dbFind db jid = some j) :
    (env.commitProcessingOk = true → fsExists fs fp = true →
      env.crew q fp = Except.error e →
      (run_analysis_task env db fs jid fp q).ret =
        Except.ok ⟨false, none, some jid⟩ ∧
      dbFind (run_analysis_task env db fs jid fp q).db jid =
        some { j with status := JobStatus.failed, error_message := some e }) ∧
    (env.commitProcessingOk = false →
      (run_analysis_task env db fs jid fp q).ret = Except.error "commit failed" ∧
      (run_analysis_task env db fs jid fp q).db = db ∧
      (run_analysis_task env db fs jid fp q).fs =
        (taskCleanup env.removeOk fs fp).1) := by
  refine ⟨fun hc hf hcrew => ?_, fun hc => ?_⟩
  · exact ⟨(run_task_crew_error q h hc hf hcrew).1,
      (run_task_crew_error q h hc hf hcrew).2⟩
  · exact ⟨(run_task_fault env fs fp q h hc).1,
      (run_task_fault env fs fp q h hc).2, rfl⟩

theorem C6_amended_only_crew_failures_caught_witness :
    ((⟨fun _ _ => Except.error "boom", true, true⟩ : TaskEnv).commitProcessingOk = true →
      fsExists ["doc.pdf"] "doc.pdf" = true →
      (⟨fun _ _ => Except.error "boom", true, true⟩ : TaskEnv).crew "q" "doc.pdf" =
        Except.error "boom" →
      (run_analysis_task ⟨fun _ _ => Except.error "boom", true, true⟩
        [⟨"j2", JobStatus.pending, "doc.pdf", none, some "q", none, none⟩]
        ["doc.pdf"] "j2" "doc.pdf" "q").ret = Except.ok ⟨false, none, some "j2"⟩ ∧
      dbFind (run_analysis_task ⟨fun _ _ => Except.error "boom", true, true⟩
        [⟨"j2", JobStatus.pending, "doc.pdf", none, some "q", none, none⟩]
        ["doc.pdf"] "j2" "doc.pdf" "q").db "j2" =
        some { (⟨"j2", JobStatus.pending, "doc.pdf", none, some "q", none, none⟩ : AnalysisJob)
                with status := JobStatus.failed, error_message := some "boom" }) ∧
    ((⟨fun _ _ => Except.error "boom", true, true⟩ : TaskEnv).commitProcessingOk = false →
      (run_analysis_task ⟨fun _ _ => Except.error "boom", true, true⟩
        [⟨"j2", JobStatus.pending, "doc.pdf", none, some "q", none, none⟩]
        ["doc.pdf"] "j2" "doc.pdf" "q").ret = Except.error "commit failed" ∧
      (run_analysis_task ⟨fun _ _ => Except.error "boom", true, true⟩
        [⟨"j2", JobStatus.pending, "doc.pdf", none, some "q", none, none⟩]
        ["doc.pdf"] "j2" "doc.pdf" "q").db =
        [⟨"j2", JobStatus.pending, "doc.pdf", none, some "q", none, none⟩] ∧
      (run_analysis_task ⟨fun _ _ => Except.error "boom", true, true⟩
        [⟨"j2", JobStatus.pending, "doc.pdf", none, some "q", none, none⟩]
        ["doc.pdf"] "j2" "doc.pdf" "q").fs =
        (taskCleanup (⟨fun _ _ => Except.error "boom", true, true⟩ : TaskEnv).removeOk
          ["doc.pdf"] "doc.pdf").1) :=
  C6_amended_only_crew_failures_caught
    ⟨fun _ _ => Except.error "boom", true, true⟩
    [⟨"j2", JobStatus.pending, "doc.pdf", none, some "q", none, none⟩]
    ["doc.pdf"] "j2" "doc.pdf" "q" "boom"
    ⟨"j2", JobStatus.pending, "doc.pdf", none, some "q", none, none⟩
    rfl

/-! ## Claim C1 -/

/-- A freshly saved file is seen by the cleanup check. -/
theorem fsExists_cons_self (fs : FS) (p : String) :
    fsExists (p :: fs) p = true := by
  simp [fsExists, List.contains_cons]

/-- C1: for a job whose input file exists when processing starts, every exit
path of `run_analysis_task` (COMPLETED, FAILED, or an unexpected fault at the
PROCESSING commit) makes exactly one deletion attempt on the temp file; when
`os.remove` succeeds the file no longer exists; a deletion failure changes
neither the job record nor the operation's return. The synchronous endpoint
gives the same guarantee for its temp file once the upload has been saved. -/
theorem C1_cleanup_totality (env : TaskEnv) (db : DB) (fs : FS)
    (jid fp q : String) (j : AnalysisJob)
    (h : dbFind db jid = some j) (hne : ¬ fp = "") (hex : fsExists fs fp = true)
    (genv : GatewayEnv) (gfs : FS) (fn qf : Option String) (fid : String)
    (hfn : pdfOk fn = true) (hsave : genv.saveOk = true) :
    (run_analysis_task env db fs jid fp q).deleteAttempts = 1 ∧
    (env.removeOk = true →
      fsExists (run_analysis_task env db fs jid fp q).fs fp = false) ∧
    (∀ b₁ b₂ : Bool,
      (run_analysis_task { env with removeOk := b₁ } db fs jid fp q).ret =
        (run_analysis_task { env with removeOk := b₂ } db fs jid fp q).ret ∧
      (run_analysis_task { env with removeOk := b₁ } db fs jid fp q).db =
        (run_analysis_task { env with removeOk := b₂ } db fs jid fp q).db) ∧
    (analyze_sync genv gfs fn qf fid).deleteAttempts = 1 ∧
    (genv.removeOk = true →
      fsExists (analyze_sync genv gfs fn qf fid).fs (uploadPath fid) = false) ∧
    (∀ b₁ b₂ : Bool,
      (analyze_sync { genv with removeOk := b₁ } gfs fn qf fid).ret =
        (analyze_sync { genv with removeOk := b₂ } gfs fn qf fid).ret) := by
  refine ⟨?_, fun hrm => ?_, fun b₁ b₂ => ⟨rfl, rfl⟩, ?_, fun hrm => ?_, fun b₁ b₂ => ?_⟩
  case refine_5 =>
    simp only [analyze_sync, hfn, hsave, Bool.not_true, Bool.false_eq_true, if_false]
  · show (taskCleanup env.removeOk fs fp).2 = 1
    rw [taskCleanup_of_exists env.removeOk hne hex]
  · show fsExists (taskCleanup env.removeOk fs fp).1 fp = false
    rw [taskCleanup_of_exists env.removeOk hne hex, hrm]
    simpa using fsExists_fsRemove fs fp
  · simp only [analyze_sync, hfn, hsave, Bool.not_true, Bool.false_eq_true, if_false]
    rw [show cleanupFile genv.removeOk (uploadPath fid :: gfs) (uploadPath fid) =
        (if genv.removeOk then fsRemove (uploadPath fid :: gfs) (uploadPath fid)
         else uploadPath fid :: gfs, 1) by
      simp [cleanupFile, fsExists_cons_self]]
  · simp only [analyze_sync, hfn, hsave, Bool.not_true, Bool.false_eq_true, if_false]
    rw [show cleanupFile genv.removeOk (uploadPath fid :: gfs) (uploadPath fid) =
        (if genv.removeOk then fsRemove (uploadPath fid :: gfs) (uploadPath fid)
         else uploadPath fid :: gfs, 1) by
      simp [cleanupFile, fsExists_cons_self]]
    rw [hrm]
    simpa using fsExists_fsRemove (uploadPath fid :: gfs) (uploadPath fid)

theorem C1_cleanup_totality_witness :
    (run_analysis_task ⟨fun _ _ => Except.ok "report", true, true⟩
        [⟨"j1", JobStatus.pending, "data/uploads/financial_document_u1.pdf", none, some "q", none, none⟩]
        ["data/uploads/financial_document_u1.pdf"] "j1"
        "data/uploads/financial_document_u1.pdf" "q").deleteAttempts = 1 ∧
    ((⟨fun _ _ => Except.ok "report", true, true⟩ : TaskEnv).removeOk = true →
      fsExists (run_analysis_task ⟨fun _ _ => Except.ok "report", true, true⟩
          [⟨"j1", JobStatus.pending, "data/uploads/financial_document_u1.pdf", none, some "q", none, none⟩]
          ["data/uploads/financial_document_u1.pdf"] "j1"
          "data/uploads/financial_document_u1.pdf" "q").fs
        "data/uploads/financial_document_u1.pdf" = false) ∧
    (∀ b₁ b₂ : Bool,
      (run_analysis_task { (⟨fun _ _ => Except.ok "report", true, true⟩ : TaskEnv) with removeOk := b₁ }
          [⟨"j1", JobStatus.pending, "data/uploads/financial_document_u1.pdf", none, some "q", none, none⟩]
          ["data/uploads/financial_document_u1.pdf"] "j1"
          "data/uploads/financial_document_u1.pdf" "q").ret =
        (run_analysis_task { (⟨fun _ _ => Except.ok "report", true, true⟩ : TaskEnv) with removeOk := b₂ }
          [⟨"j1", JobStatus.pending, "data/uploads/financial_document_u1.pdf", none, some "q", none, none⟩]
          ["data/uploads/financial_document_u1.pdf"] "j1"
          "data/uploads/financial_document_u1.pdf" "q").ret ∧
      (run_analysis_task { (⟨fun _ _ => Except.ok "report", true, true⟩ : TaskEnv) with removeOk := b₁ }
          [⟨"j1", JobStatus.pending, "data/uploads/financial_document_u1.pdf", none, some "q", none, none⟩]
          ["data/uploads/financial_document_u1.pdf"] "j1"
          "data/uploads/financial_document_u1.pdf" "q").db =
        (run_analysis_task { (⟨fun _ _ => Except.ok "report", true, true⟩ : TaskEnv) with removeOk := b₂ }
          [⟨"j1", JobStatus.pending, "data/uploads/financial_document_u1.pdf", none, some "q", none, none⟩]
          ["data/uploads/financial_document_u1.pdf"] "j1"
          "data/uploads/financial_document_u1.pdf" "q").db) ∧
    (analyze_sync ⟨fun _ _ => Except.ok "report", true, "", true, "", true⟩
        [] (some "a.PDF") (some "q") "u1").deleteAttempts = 1 ∧
    ((⟨fun _ _ => Except.ok "report", true, "", true, "", true⟩ : GatewayEnv).removeOk = true →
      fsExists (analyze_sync ⟨fun _ _ => Except.ok "report", true, "", true, "", true⟩
          [] (some "a.PDF") (some "q") "u1").fs (uploadPath "u1") = false) ∧
    (∀ b₁ b₂ : Bool,
      (analyze_sync { (⟨fun _ _ => Except.ok "report", true, "", true, "", true⟩ : GatewayEnv) with removeOk := b₁ }
          [] (some "a.PDF") (some "q") "u1").ret =
        (analyze_sync { (⟨fun _ _ => Except.ok "report", true, "", true, "", true⟩ : GatewayEnv) with removeOk := b₂ }
          [] (some "a.PDF") (some "q") "u1").ret) :=
  C1_cleanup_totality ⟨fun _ _ => Except.ok "report", true, true⟩
    [⟨"j1", JobStatus.pending, "data/uploads/financial_document_u1.pdf", none, some "q", none, none⟩]
    ["data/uploads/financial_document_u1.pdf"] "j1"
    "data/uploads/financial_document_u1.pdf" "q"
    ⟨"j1", JobStatus.pending, "data/uploads/financial_document_u1.pdf", none, some "q", none, none⟩
    rfl (by decide) rfl
    ⟨fun _ _ => Except.ok "report", true, "", true, "", true⟩
    [] (some "a.PDF") (some "q") "u1" (by decide) rfl

/-! ## Claim C3 -/

/-- Duplicate delivery of the same job: a second `run_analysis_task`
invocation on the database and filesystem left by a first one. -/
def rerun (env₁ env₂ : TaskEnv) (db : DB) (fs : FS)
    (jid fp q₁ q₂ : String) : TaskOutcome :=
  run_analysis_task env₂ (run_analysis_task env₁ db fs jid fp q₁).db
    (run_analysis_task env₁ db fs jid fp q₁).fs jid fp q₂

/-- C3 counterexample: a second invocation after a first one completed the
job is NOT a no-op — it flips the record from COMPLETED to FAILED (the temp
file having been deleted by the first invocation), so terminal states are not
absorbing in the code. -/
theorem C3_second_invocation_not_noop :
    dbFind (run_analysis_task ⟨fun _ _ => Except.ok "report", true, true⟩
        [⟨"j1", JobStatus.pending, "f.pdf", none, some "q", none, none⟩]
        ["f.pdf"] "j1" "f.pdf" "q").db "j1" =
      some ⟨"j1", JobStatus.completed, "f.pdf", none, some "q", some "report", none⟩ ∧
    dbFind (rerun ⟨fun _ _ => Except.ok "report", true, true⟩
        ⟨fun _ _ => Except.ok "report", true, true⟩
        [⟨"j1", JobStatus.pending, "f.pdf", none, some "q", none, none⟩]
        ["f.pdf"] "j1" "f.pdf" "q" "q").db "j1" =
      some ⟨"j1", JobStatus.failed, "f.pdf", none, some "q", some "report",
            some "File not found: f.pdf"⟩ ∧
    dbFind (rerun ⟨fun _ _ => Except.ok "report", true, true⟩
        ⟨fun _ _ => Except.ok "report", true, true⟩
        [⟨"j1", JobStatus.pending, "f.pdf", none, some "q", none, none⟩]
        ["f.pdf"] "j1" "f.pdf" "q" "q").db "j1" ≠
      dbFind (run_analysis_task ⟨fun _ _ => Except.ok "report", true, true⟩
        [⟨"j1", JobStatus.pending, "f.pdf", none, some "q", none, none⟩]
        ["f.pdf"] "j1" "f.pdf" "q").db "j1" :=
  ⟨rfl, rfl, by decide⟩

/-- C3 (amended): there is no terminal-state short-circuit. After a first
invocation left the job terminal and successfully deleted its file, a second
invocation re-enters the record and leaves it FAILED with a "File not found"
error (retaining the previous `result_text`); the second invocation makes no
further deletion attempt, so across both invocations exactly one deletion
attempt occurs. -/
theorem C3_amended_reprocessing_overwrites (env₁ env₂ : TaskEnv) (db : DB)
    (fs : FS) (jid fp q₁ q₂ : String) (j : AnalysisJob)
    (h : dbFind db jid = some j) (hne : ¬ fp = "") (hex : fsExists fs fp = true)
    (hc₁ : env₁.commitProcessingOk = true) (hrm₁ : env₁.removeOk = true)
    (hc₂ : env₂.commitProcessingOk = true) :
    (run_analysis_task env₁ db fs jid fp q₁).deleteAttempts = 1 ∧
    (rerun env₁ env₂ db fs jid fp q₁ q₂).deleteAttempts = 0 ∧
    (∃ j₁, dbFind (run_analysis_task env₁ db fs jid fp q₁).db jid = some j₁ ∧
      (j₁.status = JobStatus.completed ∨ j₁.status = JobStatus.failed) ∧
      dbFind (rerun env₁ env₂ db fs jid fp q₁ q₂).db jid =
        some { j₁ with status := JobStatus.failed,
                       error_message := some ("File not found: " ++ fp) }) := by
  have hfs1 : (run_analysis_task env₁ db fs jid fp q₁).fs = fsRemove fs fp := by
    show (taskCleanup env₁.removeOk fs fp).1 = _
    rw [taskCleanup_of_exists env₁.removeOk hne hex, hrm₁]
    simp
  have hmiss : fsExists (run_analysis_task env₁ db fs jid fp q₁).fs fp = false := by
    rw [hfs1]; exact fsExists_fsRemove fs fp
  refine ⟨?_, ?_, ?_⟩
  · show (taskCleanup env₁.removeOk fs fp).2 = 1
    rw [taskCleanup_of_exists env₁.removeOk hne hex]
  · show (taskCleanup env₂.removeOk (run_analysis_task env₁ db fs jid fp q₁).fs fp).2 = 0
    rw [taskCleanup_of_missing env₂.removeOk hmiss]
  · cases hcrew : env₁.crew q₁ fp with
    | ok r =>
        have h₁ := (run_task_crew_ok q₁ h hc₁ hex hcrew).2
        exact ⟨_, h₁, Or.inl rfl,
          (run_task_file_missing _ fp q₂ h₁ hc₂ hmiss).2⟩
    | error e =>
        have h₁ := (run_task_crew_error q₁ h hc₁ hex hcrew).2
        exact ⟨_, h₁, Or.inr rfl,
          (run_task_file_missing _ fp q₂ h₁ hc₂ hmiss).2⟩

theorem C3_amended_reprocessing_overwrites_witness :
    (run_analysis_task ⟨fun _ _ => Except.ok "report", true, true⟩
        [⟨"j3", JobStatus.pending, "g.pdf", none, some "q", none, none⟩]
        ["g.pdf"] "j3" "g.pdf" "q").deleteAttempts = 1 ∧
    (rerun ⟨fun _ _ => Except.ok "report", true, true⟩
        ⟨fun _ _ => Except.ok "report", true, true⟩
        [⟨"j3", JobStatus.pending, "g.pdf", none, some "q", none, none⟩]
        ["g.pdf"] "j3" "g.pdf" "q" "q").deleteAttempts = 0 ∧
    (∃ j₁, dbFind (run_analysis_task ⟨fun _ _ => Except.ok "report", true, true⟩
        [⟨"j3", JobStatus.pending, "g.pdf", none, some "q", none, none⟩]
        ["g.pdf"] "j3" "g.pdf" "q").db "j3" = some j₁ ∧
      (j₁.status = JobStatus.completed ∨ j₁.status = JobStatus.failed) ∧
      dbFind (rerun ⟨fun _ _ => Except.ok "report", true, true⟩
        ⟨fun _ _ => Except.ok "report", true, true⟩
        [⟨"j3", JobStatus.pending, "g.pdf", none, some "q", none, none⟩]
        ["g.pdf"] "j3" "g.pdf" "q" "q").db "j3" =
        some { j₁ with status := JobStatus.failed,
                       error_message := some ("File not found: " ++ "g.pdf") }) :=
  C3_amended_reprocessing_overwrites
    ⟨fun _ _ => Except.ok "report", true, true⟩
    ⟨fun _ _ => Except.ok "report", true, true⟩
    [⟨"j3", JobStatus.pending, "g.pdf", none, some "q", none, none⟩]
    ["g.pdf"] "j3" "g.pdf" "q" "q"
    ⟨"j3", JobStatus.pending, "g.pdf", none, some "q", none, none⟩
    rfl (by decide) rfl rfl rfl rfl

/-! ## Claim C2 -/

/-- C2 counterexample: `run_analysis_task` does not preserve the terminal
exactly-one-of invariant on every record it writes: reprocessing a COMPLETED
job whose file is gone yields a FAILED record with BOTH `result_text` and
`error_message` set. -/
theorem C2_reprocessing_breaks_invariant :
    jobInvariant ⟨"j1", JobStatus.completed, "f.pdf", none, some "q", some "r", none⟩ = true ∧
    dbFind (run_analysis_task ⟨fun _ _ => Except.ok "x", true, true⟩
        [⟨"j1", JobStatus.completed, "f.pdf", none, some "q", some "r", none⟩]
        [] "j1" "f.pdf" "q").db "j1" =
      some ⟨"j1", JobStatus.failed, "f.pdf", none, some "q", some "r",
            some "File not found: f.pdf"⟩ ∧
    jobInvariant ⟨"j1", JobStatus.failed, "f.pdf", none, some "q", some "r",
            some "File not found: f.pdf"⟩ = false :=
  ⟨rfl, rfl, rfl⟩

/-- C2 (amended): the invariant holds for every record written by a single
processing of a fresh PENDING job with both output fields unset, and for every
record the asynchronous submission endpoint writes (creation and the
enqueue-failure path); it is only re-invocation on an already-terminal record
that can break it. -/
theorem C2_amended_invariant_fresh_job (env : TaskEnv) (db : DB) (fs : FS)
    (jid fp q : String) (j : AnalysisJob) (h : dbFind db jid = some j)
    (hst : j.status = JobStatus.pending) (hrt : j.result_text = none)
    (hem : j.error_message = none) :
    (∀ j', dbFind (run_analysis_task env db fs jid fp q).db jid = some j' →
      jobInvariant j' = true) ∧
    (∀ (genv : GatewayEnv) (gdb : DB) (gfs : FS) (fn qf : Option String)
      (nid : String), dbFind gdb nid = none →
      ∀ j', dbFind (analyze_async genv gdb gfs fn qf nid).db nid = some j' →
        jobInvariant j' = true) := by
  constructor
  · intro j' hj'
    by_cases hc : env.commitProcessingOk = true
    · by_cases hex : fsExists fs fp = true
      · cases hcrew : env.crew q fp with
        | ok r =>
            rw [(run_task_crew_ok q h hc hex hcrew).2] at hj'
            cases hj'
            simp [jobInvariant]
        | error e =>
            rw [(run_task_crew_error q h hc hex hcrew).2] at hj'
            cases hj'
            simp [jobInvariant, hrt]
      · rw [(run_task_file_missing fs fp q h hc
          (Bool.eq_false_iff.mpr hex)).2] at hj'
        cases hj'
        simp [jobInvariant, hrt]
    · have hcf : env.commitProcessingOk = false := Bool.eq_false_iff.mpr hc
      rw [(run_task_fault env fs fp q h hcf).2, h] at hj'
      cases hj'
      simp [jobInvariant, hst, hrt, hem]
  · intro genv gdb gfs fn qf nid hnone j' hj'
    by_cases hfn : pdfOk fn = true
    · by_cases hsv : genv.saveOk = true
      · by_cases hq : genv.enqueueOk = true
        · simp only [analyze_async, hfn, hsv, hq, Bool.not_true,
            Bool.false_eq_true, if_false, if_true] at hj'
          rw [dbFind_dbAdd_new hnone _ rfl] at hj'
          cases hj'
          simp [jobInvariant]
        · have hqf : genv.enqueueOk = false := Bool.eq_false_iff.mpr hq
          simp only [analyze_async, hfn, hsv, hqf, Bool.not_true,
            Bool.false_eq_true, if_false] at hj'
          rw [dbFind_dbUpdate_self (dbFind_dbAdd_new hnone _ rfl) _ rfl] at hj'
          cases hj'
          simp [jobInvariant]
      · have hsf : genv.saveOk = false := Bool.eq_false_iff.mpr hsv
        simp only [analyze_async, hfn, hsf, Bool.not_true, Bool.not_false,
          Bool.false_eq_true, if_false, if_true] at hj'
        rw [hnone] at hj'
        cases hj'
    · have hff : pdfOk fn = false := Bool.eq_false_iff.mpr hfn
      simp only [analyze_async, hff, Bool.not_false, if_true] at hj'
      rw [hnone] at hj'
      cases hj'

theorem C2_amended_invariant_fresh_job_witness :
    (∀ j', dbFind (run_analysis_task ⟨fun _ _ => Except.ok "out", true, true⟩
        [⟨"j4", JobStatus.pending, "h.pdf", none, some "q", none, none⟩]
        ["h.pdf"] "j4" "h.pdf" "q").db "j4" = some j' →
      jobInvariant j' = true) ∧
    (∀ (genv : GatewayEnv) (gdb : DB) (gfs : FS) (fn qf : Option String)
      (nid : String), dbFind gdb nid = none →
      ∀ j', dbFind (analyze_async genv gdb gfs fn qf nid).db nid = some j' →
        jobInvariant j' = true) :=
  C2_amended_invariant_fresh_job ⟨fun _ _ => Except.ok "out", true, true⟩
    [⟨"j4", JobStatus.pending, "h.pdf", none, some "q", none, none⟩]
    ["h.pdf"] "j4" "h.pdf" "q"
    ⟨"j4", JobStatus.pending, "h.pdf", none, some "q", none, none⟩
    rfl rfl rfl rfl

/-! ## String helper lemmas -/

theorem append_left_ne_empty (s t : String) (hs : ¬ s = "") : ¬ (s ++ t = "") := by
  intro h
  apply hs
  have hd : s.data ++ t.data = [] := by
    have := congrArg String.data h
    simpa using this
  have hs' : s.data = [] := (List.append_eq_nil.mp hd).1
  cases s with
  | mk ds => cases hs'; rfl

/-! ## Claim C8 -/

/-- C8: a submission whose query form field is absent, empty, or whitespace
only gets the standard default prompt: `normalizeQuery` yields exactly the
default (which is non-empty), the async endpoint stores it on the job row, and
the sync endpoint passes it to the crew and echoes it in the response. -/
theorem C8_blank_query_defaults (q : Option String)
    (hq : q = none ∨ ∃ s, q = some s ∧ pyStrip s = "") :
    normalizeQuery q = default_query ∧
    ¬ default_query = "" ∧
    (∀ (genv : GatewayEnv) (db : DB) (fs : FS) (fn : Option String)
      (jid : String), pdfOk fn = true → genv.saveOk = true →
      dbFind db jid = none →
      ∃ j', dbFind (analyze_async genv db fs fn q jid).db jid = some j' ∧
        j'.query = some default_query) ∧
    (∀ (genv : GatewayEnv) (fs : FS) (fn : Option String) (fid r : String),
      pdfOk fn = true → genv.saveOk = true →
      genv.crew default_query (uploadPath fid) = Except.ok r →
      (analyze_sync genv fs fn q fid).ret =
        Except.ok ⟨"success", default_query, r, fn.getD ""⟩) := by
  have hnq : normalizeQuery q = default_query := by
    rcases hq with hq | ⟨s, hq, hs⟩
    · rw [hq]
      show (if pyStrip default_query = "" then default_query else pyStrip default_query) = _
      rw [show pyStrip default_query = default_query by decide]
      simp [default_query]
    · rw [hq]
      show (if pyStrip s = "" then default_query else pyStrip s) = _
      rw [hs]
      simp
  refine ⟨hnq, by decide, fun genv db fs fn jid hfn hsv hfresh => ?_,
    fun genv fs fn fid r hfn hsv hcrew => ?_⟩
  · by_cases hq2 : genv.enqueueOk = true
    · refine ⟨⟨jid, JobStatus.pending, uploadPath jid, fn,
        some (normalizeQuery q), none, none⟩, ?_, ?_⟩
      · simp only [analyze_async, hfn, hsv, hq2, Bool.not_true,
          Bool.false_eq_true, if_false, if_true]
        exact dbFind_dbAdd_new hfresh _ rfl
      · show some (normalizeQuery q) = some default_query
        rw [hnq]
    · have hqf : genv.enqueueOk = false := Bool.eq_false_iff.mpr hq2
      refine ⟨⟨jid, JobStatus.failed, uploadPath jid, fn,
        some (normalizeQuery q), none,
        some ("Failed to enqueue: " ++ genv.enqueueErr)⟩, ?_, ?_⟩
      · simp only [analyze_async, hfn, hsv, hqf, Bool.not_true,
          Bool.false_eq_true, if_false]
        exact dbFind_dbUpdate_self (dbFind_dbAdd_new hfresh _ rfl) _ rfl
      · show some (normalizeQuery q) = some default_query
        rw [hnq]
  · simp only [analyze_sync, hfn, hsv, Bool.not_true, Bool.false_eq_true,
      if_false, hnq, hcrew]

theorem C8_blank_query_defaults_witness :
    normalizeQuery (some "   ") = default_query ∧
    ¬ default_query = "" ∧
    (∀ (genv : GatewayEnv) (db : DB) (fs : FS) (fn : Option String)
      (jid : String), pdfOk fn = true → genv.saveOk = true →
      dbFind db jid = none →
      ∃ j', dbFind (analyze_async genv db fs fn (some "   ") jid).db jid = some j' ∧
        j'.query = some default_query) ∧
    (∀ (genv : GatewayEnv) (fs : FS) (fn : Option String) (fid r : String),
      pdfOk fn = true → genv.saveOk = true →
      genv.crew default_query (uploadPath fid) = Except.ok r →
      (analyze_sync genv fs fn (some "   ") fid).ret =
        Except.ok ⟨"success", default_query, r, fn.getD ""⟩) :=
  C8_blank_query_defaults (some "   ") (Or.inr ⟨"   ", rfl, by decide⟩)

/-! ## Claim C9 -/

/-- C9: an upload whose filename is missing or does not end in ".pdf"
case-insensitively is rejected by both endpoints with HTTP 400 before any
file is written and before any job row is created: database, filesystem and
deletion count are exactly those of the initial state. -/
theorem C9_non_pdf_rejected_before_side_effects (fn : Option String)
    (hfn : fn = none ∨ ∃ s, fn = some s ∧ pyEndsWith (pyLower s) ".pdf" = false)
    (genv : GatewayEnv) (db : DB) (fs : FS) (qf : Option String)
    (jid fid : String) :
    analyze_async genv db fs fn qf jid =
      ⟨Except.error ⟨400, "A PDF file is required."⟩, db, fs, 0⟩ ∧
    analyze_sync genv fs fn qf fid =
      ⟨Except.error ⟨400, "A PDF file is required."⟩, fs, 0⟩ := by
  have hp : pdfOk fn = false := by
    rcases hfn with hfn | ⟨s, hfn, hs⟩
    · rw [hfn]; rfl
    · rw [hfn]
      show (!(s = "") && pyEndsWith (pyLower s) ".pdf") = false
      rw [hs]
      simp
  constructor
  · simp [analyze_async, hp]
  · simp [analyze_sync, hp]

theorem C9_non_pdf_rejected_before_side_effects_witness :
    analyze_async ⟨fun _ _ => Except.ok "r", true, "", true, "", true⟩
        [] [] (some "malware.exe") (some "q") "j9" =
      ⟨Except.error ⟨400, "A PDF file is required."⟩, [], [], 0⟩ ∧
    analyze_sync ⟨fun _ _ => Except.ok "r", true, "", true, "", true⟩
        [] (some "malware.exe") (some "q") "f9" =
      ⟨Except.error ⟨400, "A PDF file is required."⟩, [], 0⟩ :=
  C9_non_pdf_rejected_before_side_effects (some "malware.exe")
    (Or.inr ⟨"malware.exe", rfl, by decide⟩)
    ⟨fun _ _ => Except.ok "r", true, "", true, "", true⟩
    [] [] (some "q") "j9" "f9"

/-! ## Claim C10 -/

/-- C10: when enqueueing fails after the async endpoint created the job row,
the row is kept and marked FAILED with an error message beginning
"Failed to enqueue:", the saved temp file is removed, the submitter gets a
503, and a later status poll returns that FAILED record. -/
theorem C10_enqueue_failure_row_kept (genv : GatewayEnv) (db : DB) (fs : FS)
    (fn qf : Option String) (jid : String)
    (hfn : pdfOk fn = true) (hsv : genv.saveOk = true)
    (hq : genv.enqueueOk = false) (hrm : genv.removeOk = true)
    (hfresh : dbFind db jid = none) :
    (analyze_async genv db fs fn qf jid).ret =
      Except.error ⟨503, "Queue unavailable; try /analyze/sync"⟩ ∧
    (∃ j', dbFind (analyze_async genv db fs fn qf jid).db jid = some j' ∧
      j'.status = JobStatus.failed ∧
      j'.error_message = some ("Failed to enqueue: " ++ genv.enqueueErr) ∧
      (∃ rest, "Failed to enqueue: " ++ genv.enqueueErr =
        "Failed to enqueue:" ++ rest)) ∧
    fsExists (analyze_async genv db fs fn qf jid).fs (uploadPath jid) = false ∧
    (∃ v, get_analysis_result (analyze_async genv db fs fn qf jid).db jid =
        Except.ok v ∧ v.status = JobStatus.failed ∧
      v.error = some ("Failed to enqueue: " ++ genv.enqueueErr)) := by
  have hfind : dbFind (analyze_async genv db fs fn qf jid).db jid =
      some ⟨jid, JobStatus.failed, uploadPath jid, fn, some (normalizeQuery qf),
            none, some ("Failed to enqueue: " ++ genv.enqueueErr)⟩ := by
    simp only [analyze_async, hfn, hsv, hq, Bool.not_true,
      Bool.false_eq_true, if_false]
    exact dbFind_dbUpdate_self (dbFind_dbAdd_new hfresh _ rfl) _ rfl
  have hnm : ¬ ("Failed to enqueue: " ++ genv.enqueueErr = "") :=
    append_left_ne_empty _ _ (by decide)
  have hd : decide ("Failed to enqueue: " ++ genv.enqueueErr = "") = false :=
    decide_eq_false hnm
  have hview : get_analysis_result (analyze_async genv db fs fn qf jid).db jid =
      Except.ok ⟨jid, JobStatus.failed, some (normalizeQuery qf), fn, none,
        some ("Failed to enqueue: " ++ genv.enqueueErr)⟩ := by
    simp only [get_analysis_result, hfind]
    simp [hd]
  refine ⟨?_,
    ⟨⟨jid, JobStatus.failed, uploadPath jid, fn, some (normalizeQuery qf),
      none, some ("Failed to enqueue: " ++ genv.enqueueErr)⟩,
     hfind, rfl, rfl, ⟨" " ++ genv.enqueueErr, ?_⟩⟩, ?_, ⟨_, hview, rfl, rfl⟩⟩
  · simp only [analyze_async, hfn, hsv, hq, Bool.not_true,
      Bool.false_eq_true, if_false]
  · rw [← String.append_assoc,
      show ("Failed to enqueue:" ++ " " : String) = "Failed to enqueue: " by decide]
  · simp only [analyze_async, hfn, hsv, hq, Bool.not_true,
      Bool.false_eq_true, if_false]
    show fsExists (cleanupFile genv.removeOk (uploadPath jid :: fs) (uploadPath jid)).1
      (uploadPath jid) = false
    rw [show cleanupFile genv.removeOk (uploadPath jid :: fs) (uploadPath jid) =
        (if genv.removeOk then fsRemove (uploadPath jid :: fs) (uploadPath jid)
         else uploadPath jid :: fs, 1) by
      simp [cleanupFile, fsExists_cons_self], hrm]
    simpa using fsExists_fsRemove (uploadPath jid :: fs) (uploadPath jid)

theorem C10_enqueue_failure_row_kept_witness :
    (analyze_async ⟨fun _ _ => Except.ok "r", true, "", false, "broker down", true⟩
        [] [] (some "doc.pdf") (some "q") "j10").ret =
      Except.error ⟨503, "Queue unavailable; try /analyze/sync"⟩ ∧
    (∃ j', dbFind (analyze_async
        ⟨fun _ _ => Except.ok "r", true, "", false, "broker down", true⟩
        [] [] (some "doc.pdf") (some "q") "j10").db "j10" = some j' ∧
      j'.status = JobStatus.failed ∧
      j'.error_message = some ("Failed to enqueue: " ++ "broker down") ∧
      (∃ rest, "Failed to enqueue: " ++ "broker down" =
        "Failed to enqueue:" ++ rest)) ∧
    fsExists (analyze_async
        ⟨fun _ _ => Except.ok "r", true, "", false, "broker down", true⟩
        [] [] (some "doc.pdf") (some "q") "j10").fs (uploadPath "j10") = false ∧
    (∃ v, get_analysis_result (analyze_async
        ⟨fun _ _ => Except.ok "r", true, "", false, "broker down", true⟩
        [] [] (some "doc.pdf") (some "q") "j10").db "j10" =
        Except.ok v ∧ v.status = JobStatus.failed ∧
      v.error = some ("Failed to enqueue: " ++ "broker down")) :=
  C10_enqueue_failure_row_kept
    ⟨fun _ _ => Except.ok "r", true, "", false, "broker down", true⟩
    [] [] (some "doc.pdf") (some "q") "j10" (by decide) rfl rfl rfl rfl

/-! ## Claim C7 -/

/-- C7 counterexample: the blank-line collapse is applied per page, and pages
are joined with an extra `"\n"`; a page whose text ends in a newline therefore
produces two consecutive line breaks in the returned text, contradicting "the
returned text contains no two consecutive line breaks". -/
theorem C7_returned_text_can_have_double_newline :
    read_financial_document ["doc.pdf"]
        (fun p => if p = "doc.pdf" then Except.ok ["a\n", "b"] else Except.ok [])
        "doc.pdf" = Except.ok "a\n\nb" ∧
    hasNN ("a\n\nb" : String).data = true :=
  ⟨rfl, rfl⟩

/-- C7 (amended): on an empty or non-existing path
`read_financial_document` returns the "not found" message (which contains
"not found") without consulting the PDF loader; otherwise it invokes the
loader, and a loader exception (corrupt or unreadable PDF) propagates uncaught
out of the tool; on a successful parse the returned string is never empty —
each page's text has its blank-line runs collapsed (no two adjacent newlines
within a collapsed page), the pages are joined each followed by a single line
break, and the result is the stripped concatenation, or the sentinel if that
is empty. Consecutive line breaks can still appear at page boundaries. -/
theorem C7_amended_extractor_contract (fs : FS)
    (pdfLoad : String → Except String (List String)) (path : String) :
    (∀ s, read_financial_document fs pdfLoad path = Except.ok s → ¬ (s = "")) ∧
    ((path = "" ∨ fsExists fs path = false) →
      read_financial_document fs pdfLoad path =
        Except.ok ("Error: File not found at path: " ++ path) ∧
      (∃ pre post : String,
        "Error: File not found at path: " ++ path = pre ++ "not found" ++ post) ∧
      (∀ g₁ g₂ : String → Except String (List String),
        read_financial_document fs g₁ path =
          read_financial_document fs g₂ path)) ∧
    (¬ (path = "") → fsExists fs path = true →
      (∀ e, pdfLoad path = Except.error e →
        read_financial_document fs pdfLoad path = Except.error e) ∧
      (∀ docs, pdfLoad path = Except.ok docs →
        (∀ d ∈ docs, hasNN (collapseStr d).data = false) ∧
        read_financial_document fs pdfLoad path =
          Except.ok (if pyStrip (fullReport docs) = "" then noTextSentinel
            else pyStrip (fullReport docs)))) := by
  refine ⟨?_,
    fun hmiss => ⟨?_, ⟨"Error: File ", " at path: " ++ path, ?_⟩, fun g₁ g₂ => ?_⟩,
    fun hne hex => ⟨fun e hload => ?_, fun docs hload =>
      ⟨fun d _ => hasNN_collapseLoop d.data, ?_⟩⟩⟩
  · intro s hs
    by_cases hg : (decide (path = "") || !(fsExists fs path)) = true
    · rw [show read_financial_document fs pdfLoad path =
          Except.ok ("Error: File not found at path: " ++ path) from by
        show (if (decide (path = "") || !(fsExists fs path)) = true
          then Except.ok ("Error: File not found at path: " ++ path)
          else _) = _
        rw [if_pos hg]] at hs
      cases hs
      exact append_left_ne_empty _ _ (by decide)
    · cases hload : pdfLoad path with
      | error e =>
          rw [show read_financial_document fs pdfLoad path = Except.error e from by
            show (if (decide (path = "") || !(fsExists fs path)) = true
              then _ else _) = _
            rw [if_neg hg, hload]] at hs
          exact absurd hs (by simp)
      | ok docs =>
          rw [show read_financial_document fs pdfLoad path =
              Except.ok (if pyStrip (fullReport docs) = "" then noTextSentinel
                else pyStrip (fullReport docs)) from by
            show (if (decide (path = "") || !(fsExists fs path)) = true
              then _ else _) = _
            rw [if_neg hg, hload]] at hs
          cases hs
          by_cases he : pyStrip (fullReport docs) = ""
          · rw [if_pos he]; decide
          · rw [if_neg he]; exact he
  · have hg : (decide (path = "") || !(fsExists fs path)) = true := by
      rcases hmiss with hmiss | hmiss <;> simp [hmiss]
    show (if (decide (path = "") || !(fsExists fs path)) = true
      then Except.ok ("Error: File not found at path: " ++ path) else _) = _
    rw [if_pos hg]
  · rw [← String.append_assoc,
      show ("Error: File " ++ "not found" : String) ++ " at path: " =
        "Error: File not found at path: " by decide]
  · have hg : (decide (path = "") || !(fsExists fs path)) = true := by
      rcases hmiss with hmiss | hmiss <;> simp [hmiss]
    show (if (decide (path = "") || !(fsExists fs path)) = true
        then Except.ok ("Error: File not found at path: " ++ path) else _) =
      (if (decide (path = "") || !(fsExists fs path)) = true
        then Except.ok ("Error: File not found at path: " ++ path) else _)
    rw [if_pos hg, if_pos hg]
  · have hg : (decide (path = "") || !(fsExists fs path)) = false := by
      simp [hne, hex]
    show (if (decide (path = "") || !(fsExists fs path)) = true
      then _ else _) = _
    rw [if_neg (by simp [hg]), hload]
  · have hg : (decide (path = "") || !(fsExists fs path)) = false := by
      simp [hne, hex]
    show (if (decide (path = "") || !(fsExists fs path)) = true
      then _ else _) = _
    rw [if_neg (by simp [hg]), hload]

/-- A concrete loader used to exercise `C7_amended_extractor_contract`. -/
def sampleLoad : String → Except String (List String) :=
  fun p => if p = "p.pdf" then Except.ok ["x\n\n\ny", ""] else Except.ok []

theorem C7_amended_extractor_contract_witness :
    (∀ s, read_financial_document ["p.pdf"] sampleLoad "p.pdf" = Except.ok s →
      ¬ (s = "")) ∧
    (("p.pdf" = "" ∨ fsExists ["p.pdf"] "p.pdf" = false) →
      read_financial_document ["p.pdf"] sampleLoad "p.pdf" =
        Except.ok ("Error: File not found at path: " ++ "p.pdf") ∧
      (∃ pre post : String,
        "Error: File not found at path: " ++ "p.pdf" =
          pre ++ "not found" ++ post) ∧
      (∀ g₁ g₂ : String → Except String (List String),
        read_financial_document ["p.pdf"] g₁ "p.pdf" =
          read_financial_document ["p.pdf"] g₂ "p.pdf")) ∧
    (¬ ("p.pdf" = "") → fsExists ["p.pdf"] "p.pdf" = true →
      (∀ e, sampleLoad "p.pdf" = Except.error e →
        read_financial_document ["p.pdf"] sampleLoad "p.pdf" = Except.error e) ∧
      (∀ docs, sampleLoad "p.pdf" = Except.ok docs →
        (∀ d ∈ docs, hasNN (collapseStr d).data = false) ∧
        read_financial_document ["p.pdf"] sampleLoad "p.pdf" =
          Except.ok (if pyStrip (fullReport docs) = "" then noTextSentinel
            else pyStrip (fullReport docs)))) :=
  C7_amended_extractor_contract ["p.pdf"] sampleLoad "p.pdf"

end FinAnalyzer
